import Mathlib

/-!
Shallow embedding of the constraint-system synthesis `synth`
(`src/ivcnotes/src/circuit/cs.rs`) of the ivcnotes step circuit.

The circuit's native prime field is modelled as `ZMod n`; curve points and the
non-native signature scalar are opaque type parameters `P` and `S`.  The Poseidon
hash configuration and the EdDSA verification gadget are external collaborators,
modelled as an abstract record of pure functions (`Hasher`), exactly as `synth`
is generic over its `cir.h : PoseidonConfigs`.

A satisfying assignment is a value for every witness wire allocated by `synth`
together with the six public inputs; `constraints` records whether the emitted
constraint set is satisfied by that assignment.
-/

namespace IVCNotes

/-- Output-slot discriminator of a note (`NoteOutIndex` in `src/note.rs`):
a note is either the sole output of an issuance, or one of the two outputs
of a split. -/
inductive NoteOutIndex : Type
  | Issue : NoteOutIndex
  | Out0 : NoteOutIndex
  | Out1 : NoteOutIndex

/-- Modelled from the spec: the field encoding `NoteOutIndex::inner`
(`src/note.rs`, not part of the excerpt).  The spec fixes only that `Issue`,
`Out0`, `Out1` are distinct discriminator constants; we encode them as the
field constants 0, 1, 2. -/
def NoteOutIndex.inner (n : ℕ) : NoteOutIndex → ZMod n
  | NoteOutIndex.Issue => 0
  | NoteOutIndex.Out0 => 1
  | NoteOutIndex.Out1 => 2

/-- In-circuit note representation (`NoteVar` in `circuit/inputs.rs`),
as constructed by `synth`: all six entries are field elements. -/
structure NoteVar (F : Type) : Type where
  asset_hash : F
  owner : F
  value : F
  step : F
  parent_note : F
  out_index : F

/-- The six public inputs, in the fixed order allocated by
`PublicInputVar::new` (cs.rs line 27). -/
structure PublicInputVar (F : Type) : Type where
  step : F
  asset_hash : F
  sender : F
  state_in : F
  state_out : F
  nullifier : F

/-- The external hash configuration (`cir.h : PoseidonConfigs`) together with
the external signature-verification gadget: six pure hash derivations
(cs.rs calls `var_note`, `var_blind_note`, `var_state`, `var_nullifier`,
`var_sighash`, `var_id_commitment`) and the satisfiability predicate of
`verify_signature` (cs.rs line 197).  `synth` is generic over this data. -/
structure Hasher (F P S : Type) : Type where
  var_note : NoteVar F → F
  var_blind_note : F → F → F
  var_state : F → F → F
  var_nullifier : F → F → F
  var_sighash : F → F → F → F
  var_id_commitment : F → P → F
  verify_signature : P → P → S → F → Bool

/-- One value per witness wire allocated by `synth`, in source order.  Each
field names the local variable the wire is bound to in cs.rs; the comment
gives the line and the `aux` accessor used in proving mode.  Note that
`e.value_out` feeds both `issue_value` (line 40) and `value_out_1`
(line 129), and `e.blind_out_0` feeds both `issue_blind` (line 41) and
`blind_0` (line 150): those are separately allocated wires that happen to
receive equal values in proving mode, so a satisfying assignment may give
them independent values. -/
structure Assignment (F P S : Type) : Type where
  /-- line 30, `e.public_key` -/
  public_key : P
  /-- line 31, `e.nullifier_key` -/
  nullifier_key : F
  /-- line 40, `E::Field::from(e.value_out)` -/
  issue_value : F
  /-- line 41, `e.blind_out_0` -/
  issue_blind : F
  /-- line 80, `e.sibling` -/
  sibling : F
  /-- line 81, `E::Field::from(e.value_in)` -/
  value_in : F
  /-- line 82, `e.blind_in` -/
  blind_in : F
  /-- line 83, `e.parent` -/
  parent_note : F
  /-- line 85, `e.input_index.inner()` -/
  input_index : F
  /-- line 129, `E::Field::from(e.value_out)` -/
  value_out_1 : F
  /-- line 130, `e.blind_out_1` -/
  blind_1 : F
  /-- line 150, `e.blind_out_0` -/
  blind_0 : F
  /-- line 151, `e.receiver` -/
  receiver : F
  /-- line 192, `e.signature.r()` -/
  sig_r : P
  /-- line 193, `e.signature.s()` -/
  sig_s : S

/-- `ark-relations` synthesis error as used by `synth`: the allocation of a
required witness value fails when no assignment is available. -/
inductive SynthesisError : Type
  | AssignmentMissing : SynthesisError

/-- `FpVar::is_eq` / `EqGadget::is_eq`: the boolean wire witnessing equality
of two field elements. -/
def is_eq {n : ℕ} (a b : ZMod n) : Bool :=
  decide (a = b)

/-- `conditional_enforce_equal(a, b, cond)`: the emitted constraint is
satisfied iff `cond` implies `a = b`. -/
def conditional_enforce_equal {n : ℕ} (a b : ZMod n) (cond : Bool) : Bool :=
  !cond || is_eq a b

/-- `CondSelectGadget::conditionally_select(cond, t, f)`: returns `t` when
`cond` holds and `f` otherwise. -/
def conditionally_select {α : Type} (cond : Bool) (t f : α) : α :=
  if cond then t else f

/-- Satisfied set of ark-r1cs-std `FpVar::enforce_smaller_than`: the gadget
range-checks both operands into `[0, (p-1)/2]` and then enforces the
strict comparison of canonical representatives (via the doubled-difference
parity trick, which is exact on that range). -/
def enforce_smaller_than {n : ℕ} (a b : ZMod n) : Bool :=
  decide (a.val ≤ (n - 1) / 2) && decide (b.val ≤ (n - 1) / 2) &&
    decide (a.val < b.val)

/-- Satisfied set of ark-r1cs-std
`FpVar::enforce_cmp(other, Ordering::Less, true)` as called on cs.rs lines
147 and 148: with `should_also_check_equality = true` the gadget enforces
`self ≤ other`, by enforcing `self` strictly smaller than `other + 1`. -/
def enforce_cmp_le {n : ℕ} (a b : ZMod n) : Bool :=
  enforce_smaller_than a (b + 1)

/-- `E::Field::from(u64::MAX)`, the constant `max` of cs.rs line 146. -/
def u64_max (n : ℕ) : ZMod n :=
  ((2 ^ 64 - 1 : ℕ) : ZMod n)

/-! ### Values derived by `synth`, in source order

Each definition names the local variable of `cs.rs` it embeds. -/

variable {P S : Type}

/-- `is_issue_tx` (line 38): the branch selector, true iff the public `step`
equals zero. -/
def is_issue_tx {n : ℕ} (pi : PublicInputVar (ZMod n)) : Bool :=
  is_eq pi.step 0

/-- The issue-branch note (lines 42-49): output slot `Issue`, parent zero,
owner and asset taken from the public input. -/
def issue_note {n : ℕ} (pi : PublicInputVar (ZMod n))
    (w : Assignment (ZMod n) P S) : NoteVar (ZMod n) :=
  ⟨pi.asset_hash, pi.sender, w.issue_value, pi.step, 0, NoteOutIndex.inner n NoteOutIndex.Issue⟩

/-- `note_hash` of the issue branch (line 52). -/
def issue_note_hash {n : ℕ} (h : Hasher (ZMod n) P S) (pi : PublicInputVar (ZMod n))
    (w : Assignment (ZMod n) P S) : ZMod n :=
  h.var_note (issue_note pi w)

/-- `blind_note_hash` of the issue branch (line 54). -/
def issue_blind_note_hash {n : ℕ} (h : Hasher (ZMod n) P S) (pi : PublicInputVar (ZMod n))
    (w : Assignment (ZMod n) P S) : ZMod n :=
  h.var_blind_note (issue_note_hash h pi w) w.issue_blind

/-- `state_out` of the issue branch (line 61): `state(0, blind_note_hash)`. -/
def issue_state_out {n : ℕ} (h : Hasher (ZMod n) P S) (pi : PublicInputVar (ZMod n))
    (w : Assignment (ZMod n) P S) : ZMod n :=
  h.var_state 0 (issue_blind_note_hash h pi w)

/-- `sighash` of the issue branch (lines 67-69):
`var_sighash(const_zero, const_zero, note_hash)`. -/
def issue_sighash {n : ℕ} (h : Hasher (ZMod n) P S) (pi : PublicInputVar (ZMod n))
    (w : Assignment (ZMod n) P S) : ZMod n :=
  h.var_sighash 0 0 (issue_note_hash h pi w)

/-- `is_i0` (line 87): the input note sits in slot `Out0`. -/
def split_is_i0 {n : ℕ} (w : Assignment (ZMod n) P S) : Bool :=
  is_eq w.input_index (NoteOutIndex.inner n NoteOutIndex.Out0)

/-- `is_i1` (line 88): the input note sits in slot `Out1`. -/
def split_is_i1 {n : ℕ} (w : Assignment (ZMod n) P S) : Bool :=
  is_eq w.input_index (NoteOutIndex.inner n NoteOutIndex.Out1)

/-- `note_in` (lines 91-98): the spent note, rebuilt from the witnessed
value, parent and slot index. -/
def note_in {n : ℕ} (pi : PublicInputVar (ZMod n))
    (w : Assignment (ZMod n) P S) : NoteVar (ZMod n) :=
  ⟨pi.asset_hash, pi.sender, w.value_in, pi.step, w.parent_note, w.input_index⟩

/-- `note_hash` of the split input leg (line 101). -/
def note_in_hash {n : ℕ} (h : Hasher (ZMod n) P S) (pi : PublicInputVar (ZMod n))
    (w : Assignment (ZMod n) P S) : ZMod n :=
  h.var_note (note_in pi w)

/-- `blind_note_hash` of the split input leg (line 104). -/
def blind_note_in_hash {n : ℕ} (h : Hasher (ZMod n) P S) (pi : PublicInputVar (ZMod n))
    (w : Assignment (ZMod n) P S) : ZMod n :=
  h.var_blind_note (note_in_hash h pi w) w.blind_in

/-- `lhs` (line 107): `conditionally_select(is_i0, blind_note_hash, sibling)`. -/
def split_lhs {n : ℕ} (h : Hasher (ZMod n) P S) (pi : PublicInputVar (ZMod n))
    (w : Assignment (ZMod n) P S) : ZMod n :=
  conditionally_select (split_is_i0 w) (blind_note_in_hash h pi w) w.sibling

/-- `rhs` (line 108): `conditionally_select(is_i1, sibling, blind_note_hash)`. -/
def split_rhs {n : ℕ} (h : Hasher (ZMod n) P S) (pi : PublicInputVar (ZMod n))
    (w : Assignment (ZMod n) P S) : ZMod n :=
  conditionally_select (split_is_i1 w) w.sibling (blind_note_in_hash h pi w)

/-- `state_in` as reconstructed by the split input leg (line 109). -/
def split_state_in {n : ℕ} (h : Hasher (ZMod n) P S) (pi : PublicInputVar (ZMod n))
    (w : Assignment (ZMod n) P S) : ZMod n :=
  h.var_state (split_lhs h pi w) (split_rhs h pi w)

/-- `nullifier` derived by the split input leg (lines 116-118). -/
def split_nullifier {n : ℕ} (h : Hasher (ZMod n) P S) (pi : PublicInputVar (ZMod n))
    (w : Assignment (ZMod n) P S) : ZMod n :=
  h.var_nullifier (note_in_hash h pi w) w.nullifier_key

/-- `note_out_1` (lines 131-138): second split output, owned by the sender,
parented on the spent note's blinded commitment. -/
def note_out_1 {n : ℕ} (h : Hasher (ZMod n) P S) (pi : PublicInputVar (ZMod n))
    (w : Assignment (ZMod n) P S) : NoteVar (ZMod n) :=
  ⟨pi.asset_hash, pi.sender, w.value_out_1, pi.step, blind_note_in_hash h pi w,
    NoteOutIndex.inner n NoteOutIndex.Out1⟩

/-- `note_hash_1` (line 140). -/
def note_out_hash_1 {n : ℕ} (h : Hasher (ZMod n) P S) (pi : PublicInputVar (ZMod n))
    (w : Assignment (ZMod n) P S) : ZMod n :=
  h.var_note (note_out_1 h pi w)

/-- `blind_note_hash_1` (line 143): `var_blind_note(note_hash_1, blind_1)`. -/
def blind_note_hash_1 {n : ℕ} (h : Hasher (ZMod n) P S) (pi : PublicInputVar (ZMod n))
    (w : Assignment (ZMod n) P S) : ZMod n :=
  h.var_blind_note (note_out_hash_1 h pi w) w.blind_1

/-- `value_out_0` (line 144): field subtraction `value_in - value_out_1`,
not an independently allocated wire. -/
def value_out_0 {n : ℕ} (w : Assignment (ZMod n) P S) : ZMod n :=
  w.value_in - w.value_out_1

/-- `note_out_0` (lines 152-159): first split output, owned by the receiver,
carrying the subtraction-derived value. -/
def note_out_0 {n : ℕ} (h : Hasher (ZMod n) P S) (pi : PublicInputVar (ZMod n))
    (w : Assignment (ZMod n) P S) : NoteVar (ZMod n) :=
  ⟨pi.asset_hash, w.receiver, value_out_0 w, pi.step, blind_note_in_hash h pi w,
    NoteOutIndex.inner n NoteOutIndex.Out0⟩

/-- `note_hash_0` (line 161). -/
def note_out_hash_0 {n : ℕ} (h : Hasher (ZMod n) P S) (pi : PublicInputVar (ZMod n))
    (w : Assignment (ZMod n) P S) : ZMod n :=
  h.var_note (note_out_0 h pi w)

/-- `blind_note_hash_0` (line 164): the source reads
`var_blind_note(cs, &note_hash_1, &blind_0)` — the first argument is
`note_hash_1`, not `note_hash_0`. -/
def blind_note_hash_0 {n : ℕ} (h : Hasher (ZMod n) P S) (pi : PublicInputVar (ZMod n))
    (w : Assignment (ZMod n) P S) : ZMod n :=
  h.var_blind_note (note_out_hash_1 h pi w) w.blind_0

/-- `state_out` as reconstructed by the split output leg (lines 167-169). -/
def split_state_out {n : ℕ} (h : Hasher (ZMod n) P S) (pi : PublicInputVar (ZMod n))
    (w : Assignment (ZMod n) P S) : ZMod n :=
  h.var_state (blind_note_hash_0 h pi w) (blind_note_hash_1 h pi w)

/-- `sighash` of the split branch (lines 179-184). -/
def split_sighash {n : ℕ} (h : Hasher (ZMod n) P S) (pi : PublicInputVar (ZMod n))
    (w : Assignment (ZMod n) P S) : ZMod n :=
  h.var_sighash (note_in_hash h pi w) (note_out_hash_0 h pi w) (note_out_hash_1 h pi w)

/-- The digest handed to the signature gate (lines 188-189):
`conditionally_select(is_issue_tx, sighash_issue, sighash_split)`. -/
def selected_sighash {n : ℕ} (h : Hasher (ZMod n) P S) (pi : PublicInputVar (ZMod n))
    (w : Assignment (ZMod n) P S) : ZMod n :=
  conditionally_select (is_issue_tx pi) (issue_sighash h pi w) (split_sighash h pi w)

/-- Whether the constraint set emitted by `synth` is satisfied by the
assignment `(pi, w)`.  One conjunct per enforcement call, in source order:
line 35 (`enforce_equal` on sender), line 57 (issue `state_in`), line 63
(issue `state_out`), line 89 (slot disjunction), line 112 (split `state_in`),
line 121 (split nullifier), line 147 (`value_out_0 ≤ value_out_1`), line 148
(`value_out_1 ≤ u64::MAX`), line 172 (split `state_out`), line 197
(signature over the selected digest). -/
def constraints {n : ℕ} (h : Hasher (ZMod n) P S) (pi : PublicInputVar (ZMod n))
    (w : Assignment (ZMod n) P S) : Bool :=
  is_eq pi.sender (h.var_id_commitment w.nullifier_key w.public_key) &&
  conditional_enforce_equal pi.state_in pi.asset_hash (is_issue_tx pi) &&
  conditional_enforce_equal pi.state_out (issue_state_out h pi w) (is_issue_tx pi) &&
  (split_is_i0 w || split_is_i1 w) &&
  conditional_enforce_equal pi.state_in (split_state_in h pi w) (!is_issue_tx pi) &&
  conditional_enforce_equal pi.nullifier (split_nullifier h pi w) (!is_issue_tx pi) &&
  enforce_cmp_le (value_out_0 w) w.value_out_1 &&
  enforce_cmp_le w.value_out_1 (u64_max n) &&
  conditional_enforce_equal pi.state_out (split_state_out h pi w) (!is_issue_tx pi) &&
  h.verify_signature w.public_key w.sig_r w.sig_s (selected_sighash h pi w)

/-- `synth` (cs.rs lines 14-200), at the level of one synthesis run.  Every
witness allocation (`witness_in`, `witness_point_in`,
`NonNativeFieldVar::new_witness`; lines 30-196) reads its value from the
optional `aux` data through a closure that returns
`SynthesisError::AssignmentMissing` when `aux` is absent — modelled from
the spec (§5, §7): in a structure-only synthesis mode no witness values are
present and the first allocation fails fast with that setup error, before
any constraint can be evaluated.  With `aux` present, synthesis completes
and the run is characterised by whether the emitted constraints are
satisfied. -/
def synth {n : ℕ} (h : Hasher (ZMod n) P S) (pi : PublicInputVar (ZMod n))
    (aux : Option (Assignment (ZMod n) P S)) : Except SynthesisError Bool :=
  match aux with
  | Option.none => Except.error SynthesisError.AssignmentMissing
  | Option.some w => Except.ok (constraints h pi w)

/-! ### Concrete instances

A concrete modulus above `2^65` (so that the `u64::MAX` range gate behaves as
in the circuit's 254-bit field), a concrete hash configuration whose six
derivations are simple injective-enough arithmetic combinations, and concrete
satisfying assignments for an issuance and for a split. -/

/-- Concrete modulus for evaluation: `2^66`, large enough that all values in
the concrete assignments and the `u64::MAX` bound have their natural
canonical representatives. -/
def toyN : ℕ := 2 ^ 66

/-- A concrete hash configuration over `ZMod toyN` (points and scalars are
trivial): each derivation is a distinct arithmetic combination, so distinct
argument positions and distinct note slots produce distinct digests. -/
def toyH : Hasher (ZMod toyN) Unit Unit :=
  ⟨fun nv => nv.out_index + 1,
   fun c b => c + b,
   fun l r => l + 2 * r,
   fun c k => c + k,
   fun a b c => a + 2 * b + 4 * c,
   fun k _ => k,
   fun _ _ _ _ => true⟩

/-- A concrete assignment: slot `Out0` for the spent note, `value_in = 2`,
`value_out_1 = 1`, `sibling = 7`, all blinding factors and keys zero. -/
def toyW : Assignment (ZMod toyN) Unit Unit :=
  ⟨(), 0, 0, 0, 7, 2, 0, 0, 1, 1, 0, 0, 0, (), ()⟩

/-- Public input of a split step (`step = 1`) matching `toyW` under `toyH`:
`state_in`, `state_out` and `nullifier` equal the derived values. -/
def toyPiSplit : PublicInputVar (ZMod toyN) :=
  ⟨1, 5, 0, 6, 9, 2⟩

/-- Public input of an issuance (`step = 0`) matching `toyW` under `toyH`:
`state_in` is the asset hash, `state_out` the derived issue state; the
public nullifier is deliberately an arbitrary value. -/
def toyPiIssue : PublicInputVar (ZMod toyN) :=
  ⟨0, 5, 0, 5, 2, 123⟩

/-- Replace the public nullifier, keeping the other five public inputs. -/
def set_nullifier {n : ℕ} (pi : PublicInputVar (ZMod n)) (x : ZMod n) :
    PublicInputVar (ZMod n) :=
  ⟨pi.step, pi.asset_hash, pi.sender, pi.state_in, pi.state_out, x⟩

/-! ### Helper lemmas -/

theorem or_of_eq_false_iff {c : Bool} {d : Prop} : (c = false ∨ d) ↔ (c = true → d) := by
  cases c <;> simp

theorem or_of_eq_true_iff {c : Bool} {d : Prop} : (c = true ∨ d) ↔ (c = false → d) := by
  cases c <;> simp

/-- Unpacking of the emitted constraint set into its ten conjuncts. -/
theorem constraints_iff {n : ℕ} (h : Hasher (ZMod n) P S) (pi : PublicInputVar (ZMod n))
    (w : Assignment (ZMod n) P S) :
    constraints h pi w = true ↔
      pi.sender = h.var_id_commitment w.nullifier_key w.public_key ∧
      (is_issue_tx pi = true → pi.state_in = pi.asset_hash) ∧
      (is_issue_tx pi = true → pi.state_out = issue_state_out h pi w) ∧
      (w.input_index = NoteOutIndex.inner n NoteOutIndex.Out0 ∨
        w.input_index = NoteOutIndex.inner n NoteOutIndex.Out1) ∧
      (is_issue_tx pi = false → pi.state_in = split_state_in h pi w) ∧
      (is_issue_tx pi = false → pi.nullifier = split_nullifier h pi w) ∧
      enforce_cmp_le (value_out_0 w) w.value_out_1 = true ∧
      enforce_cmp_le w.value_out_1 (u64_max n) = true ∧
      (is_issue_tx pi = false → pi.state_out = split_state_out h pi w) ∧
      h.verify_signature w.public_key w.sig_r w.sig_s (selected_sighash h pi w) = true := by
  simp only [constraints, Bool.and_eq_true, conditional_enforce_equal,
    Bool.or_eq_true, is_eq, split_is_i0, split_is_i1, decide_eq_true_eq, and_assoc,
    Bool.not_eq_true', Bool.not_eq_false', or_of_eq_false_iff, or_of_eq_true_iff]

/-- From a completed synthesis run to the satisfied constraint set. -/
theorem synth_sat {n : ℕ} {h : Hasher (ZMod n) P S} {pi : PublicInputVar (ZMod n)}
    {w : Assignment (ZMod n) P S}
    (hs : synth h pi (Option.some w) = Except.ok true) : constraints h pi w = true := by
  simpa [synth] using hs

/-- The equality-permitting comparison gate bounds the canonical
representatives: a satisfied `enforce_cmp(·, Less, true)` gives `a ≤ b`. -/
theorem enforce_cmp_le_val_le {n : ℕ} {a b : ZMod n}
    (hc : enforce_cmp_le a b = true) : a.val ≤ b.val := by
  simp only [enforce_cmp_le, enforce_smaller_than, Bool.and_eq_true, decide_eq_true_eq] at hc
  obtain ⟨⟨-, -⟩, hlt⟩ := hc
  have hadd : (b + 1).val ≤ b.val + (1 : ZMod n).val := ZMod.val_add_le b 1
  have hone : (1 : ZMod n).val ≤ 1 := by
    rw [ZMod.val_one_eq_one_mod]
    exact Nat.mod_le 1 n
  omega

/-- A satisfied `u64::MAX` range gate bounds the representative below `2^64`,
whenever the modulus exceeds `2^64` (as the circuit's 254-bit field does). -/
theorem enforce_cmp_le_u64 {n : ℕ} (hn : 2 ^ 64 < n) {b : ZMod n}
    (hc : enforce_cmp_le b (u64_max n) = true) : b.val < 2 ^ 64 := by
  simp only [enforce_cmp_le, enforce_smaller_than, Bool.and_eq_true, decide_eq_true_eq] at hc
  obtain ⟨⟨-, -⟩, hlt⟩ := hc
  have hmax : (u64_max n + 1) = ((2 ^ 64 : ℕ) : ZMod n) := by
    rw [u64_max]
    push_cast
    norm_num
  rw [hmax, ZMod.val_natCast, Nat.mod_eq_of_lt hn] at hlt
  exact hlt

/-- The concrete split assignment satisfies the circuit. -/
theorem toy_split_sat : synth toyH toyPiSplit (Option.some toyW) = Except.ok true :=
  congrArg Except.ok (by decide)

/-- The concrete issuance assignment satisfies the circuit. -/
theorem toy_issue_sat : synth toyH toyPiIssue (Option.some toyW) = Except.ok true :=
  congrArg Except.ok (by decide)

/-! ### Claims -/

/-- Claim C7: every satisfying assignment, for both transaction kinds and
unconditionally of the branch selector, fixes the public sender to
`Hasher.idCommitment(nullifierKey, publicKey)` of the witnessed nullifier
key and public key (cs.rs lines 29-35). -/
theorem C7_sender_integrity {n : ℕ} (h : Hasher (ZMod n) P S)
    (pi : PublicInputVar (ZMod n)) (w : Assignment (ZMod n) P S)
    (hs : synth h pi (Option.some w) = Except.ok true) :
    pi.sender = h.var_id_commitment w.nullifier_key w.public_key :=
  ((constraints_iff h pi w).mp (synth_sat hs)).1

/-- Claim C7 witness: the concrete split assignment satisfies the circuit
and its public sender is the derived identity commitment. -/
theorem C7_witness :
    synth toyH toyPiSplit (Option.some toyW) = Except.ok true ∧
      toyPiSplit.sender = toyH.var_id_commitment toyW.nullifier_key toyW.public_key :=
  ⟨toy_split_sat, C7_sender_integrity toyH toyPiSplit toyW toy_split_sat⟩

/-- Claim C6: every satisfying assignment has its witnessed input slot equal
to `Out0` or to `Out1`; the disjunction of the two equality tests is enforced
(cs.rs lines 85-89), so any other slot value is unsatisfiable. -/
theorem C6_slot_validity {n : ℕ} (h : Hasher (ZMod n) P S)
    (pi : PublicInputVar (ZMod n)) (w : Assignment (ZMod n) P S)
    (hs : synth h pi (Option.some w) = Except.ok true) :
    w.input_index = NoteOutIndex.inner n NoteOutIndex.Out0 ∨
      w.input_index = NoteOutIndex.inner n NoteOutIndex.Out1 :=
  ((constraints_iff h pi w).mp (synth_sat hs)).2.2.2.1

/-- Claim C6 witness: the concrete split assignment satisfies the circuit
with its input slot equal to `Out0`. -/
theorem C6_witness :
    synth toyH toyPiSplit (Option.some toyW) = Except.ok true ∧
      (toyW.input_index = NoteOutIndex.inner toyN NoteOutIndex.Out0 ∨
        toyW.input_index = NoteOutIndex.inner toyN NoteOutIndex.Out1) :=
  ⟨toy_split_sat, C6_slot_validity toyH toyPiSplit toyW toy_split_sat⟩

/-- Claim C8: `value_out_0` is not an independent witness wire but the field
subtraction `value_in - value_out_1` (cs.rs line 144), so conservation
`value_out_0 + value_out_1 = value_in` holds in the field identically for
every assignment — satisfying or not — with no separate constraint. -/
theorem C8_conservation {n : ℕ} (w : Assignment (ZMod n) P S) :
    value_out_0 w + w.value_out_1 = w.value_in := by
  rw [value_out_0]
  ring

/-- Claim C10: when synthesis runs without concrete witness values
(structure-only/setup mode, `aux = None`), allocating a required witness
fails immediately with the distinct setup error
`SynthesisError::AssignmentMissing` (cs.rs lines 192-196 for the non-native
scalar `s`; every earlier `witness_in` behaves the same), rather than
completing with an unsatisfiable constraint system. -/
theorem C10_setup_error {n : ℕ} (h : Hasher (ZMod n) P S)
    (pi : PublicInputVar (ZMod n)) :
    synth h pi Option.none = Except.error SynthesisError.AssignmentMissing :=
  rfl

/-- Claim C9: the split branch's structural gates are enforced
unconditionally (cs.rs lines 85-89, 146-148 carry no branch selector): even
for an issuance (`step = 0`), a satisfying assignment has a valid input
slot, `value_in - value_out_1 ≤ value_out_1` and `value_out_1 ≤ 2^64 - 1`
on canonical representatives. -/
theorem C9_unconditional_gates {n : ℕ} (hn : 2 ^ 64 < n) (h : Hasher (ZMod n) P S)
    (pi : PublicInputVar (ZMod n)) (w : Assignment (ZMod n) P S)
    (hs : synth h pi (Option.some w) = Except.ok true) (hstep : pi.step = 0) :
    (w.input_index = NoteOutIndex.inner n NoteOutIndex.Out0 ∨
      w.input_index = NoteOutIndex.inner n NoteOutIndex.Out1) ∧
      (value_out_0 w).val ≤ w.value_out_1.val ∧ w.value_out_1.val ≤ 2 ^ 64 - 1 := by
  obtain ⟨-, -, -, hslot, -, -, hcmp0, hcmp1, -, -⟩ :=
    (constraints_iff h pi w).mp (synth_sat hs)
  refine ⟨hslot, enforce_cmp_le_val_le hcmp0, ?_⟩
  have hb := enforce_cmp_le_u64 hn hcmp1
  omega

/-- Claim C9 witness: the concrete issuance assignment (`step = 0`)
satisfies the circuit, and the split branch's structural gates hold of it. -/
theorem C9_witness :
    2 ^ 64 < toyN ∧ synth toyH toyPiIssue (Option.some toyW) = Except.ok true ∧
      toyPiIssue.step = 0 ∧
      ((toyW.input_index = NoteOutIndex.inner toyN NoteOutIndex.Out0 ∨
          toyW.input_index = NoteOutIndex.inner toyN NoteOutIndex.Out1) ∧
        (value_out_0 toyW).val ≤ toyW.value_out_1.val ∧
          toyW.value_out_1.val ≤ 2 ^ 64 - 1) :=
  ⟨by decide, toy_issue_sat, rfl,
    C9_unconditional_gates (by decide) toyH toyPiIssue toyW toy_issue_sat rfl⟩

/-- Claim C4 counterexample: the claim asserts the strict ordering
`value_out_0 < value_out_1` so that an assignment with
`value_out_0 = value_out_1` is unsatisfiable; but cs.rs line 147 passes
`should_also_check_equality = true` to `enforce_cmp`, and this concrete
split assignment satisfies the whole circuit with
`value_out_0 = value_out_1 = 1`. -/
theorem C4_counterexample :
    synth toyH toyPiSplit (Option.some toyW) = Except.ok true ∧
      toyPiSplit.step ≠ 0 ∧ value_out_0 toyW = toyW.value_out_1 :=
  ⟨toy_split_sat, by decide, by decide⟩

/-- Claim C4, amended: the circuit enforces the non-strict comparison
`value_out_0 ≤ value_out_1` (equality permitted) together with the strict
bound `value_out_1 < 2^64`; the swapped concrete assignment
`value_in = 100, value_out_1 = 30` (so `value_out_0 = 70`) remains
unsatisfiable. -/
theorem C4_value_ordering_amended {n : ℕ} (hn : 2 ^ 64 < n) :
    (∀ (h : Hasher (ZMod n) P S) (pi : PublicInputVar (ZMod n))
        (w : Assignment (ZMod n) P S),
      synth h pi (Option.some w) = Except.ok true →
        (value_out_0 w).val ≤ w.value_out_1.val ∧ w.value_out_1.val < 2 ^ 64) ∧
    (∀ (h : Hasher (ZMod n) P S) (pi : PublicInputVar (ZMod n))
        (w : Assignment (ZMod n) P S),
      w.value_in = 100 → w.value_out_1 = 30 →
        synth h pi (Option.some w) ≠ Except.ok true) := by
  constructor
  · intro h pi w hs
    obtain ⟨-, -, -, -, -, -, hcmp0, hcmp1, -, -⟩ :=
      (constraints_iff h pi w).mp (synth_sat hs)
    exact ⟨enforce_cmp_le_val_le hcmp0, enforce_cmp_le_u64 hn hcmp1⟩
  · intro h pi w hv hv1 hs
    obtain ⟨-, -, -, -, -, -, hcmp0, -, -, -⟩ :=
      (constraints_iff h pi w).mp (synth_sat hs)
    have h70 : value_out_0 w = ((70 : ℕ) : ZMod n) := by
      rw [value_out_0, hv, hv1]
      norm_num
    have h31 : w.value_out_1 + 1 = ((31 : ℕ) : ZMod n) := by
      rw [hv1]
      norm_num
    simp only [enforce_cmp_le, enforce_smaller_than, Bool.and_eq_true,
      decide_eq_true_eq, h70, h31] at hcmp0
    obtain ⟨-, hlt⟩ := hcmp0
    rw [ZMod.val_natCast, ZMod.val_natCast,
      Nat.mod_eq_of_lt (lt_trans (by norm_num) hn),
      Nat.mod_eq_of_lt (lt_trans (by norm_num) hn)] at hlt
    omega

/-- Claim C4 witness: at a concrete modulus above `2^64`, the amended
ordering statement holds. -/
theorem C4_witness :
    2 ^ 64 < toyN ∧
      ((∀ (h : Hasher (ZMod toyN) Unit Unit) (pi : PublicInputVar (ZMod toyN))
          (w : Assignment (ZMod toyN) Unit Unit),
        synth h pi (Option.some w) = Except.ok true →
          (value_out_0 w).val ≤ w.value_out_1.val ∧ w.value_out_1.val < 2 ^ 64) ∧
      (∀ (h : Hasher (ZMod toyN) Unit Unit) (pi : PublicInputVar (ZMod toyN))
          (w : Assignment (ZMod toyN) Unit Unit),
        w.value_in = 100 → w.value_out_1 = 30 →
          synth h pi (Option.some w) ≠ Except.ok true)) :=
  ⟨by decide, C4_value_ordering_amended (by decide)⟩

/-- Claim C2 counterexample: the claim asserts that the first output note's
blinded commitment is derived from its own commitment,
`blind_note_hash_0 = var_blind_note(note_hash_0, blind_0)`; but cs.rs
line 164 derives it from `note_hash_1`, and on this satisfying split
assignment the two differ. -/
theorem C2_counterexample :
    synth toyH toyPiSplit (Option.some toyW) = Except.ok true ∧
      toyPiSplit.step ≠ 0 ∧
      blind_note_hash_0 toyH toyPiSplit toyW ≠
        toyH.var_blind_note (note_out_hash_0 toyH toyPiSplit toyW) toyW.blind_0 :=
  ⟨toy_split_sat, by decide, by decide⟩

/-- Claim C2, amended: in the split output leg the second output's blinded
commitment is derived from its own commitment with its own blinding factor,
but the first output's blinded commitment is derived from the *second*
output note's commitment (`note_hash_1`) with blinding factor `blind_0`
(cs.rs line 164); these two values are the arguments to `var_state` for the
output state bound to the public input. -/
theorem C2_output_blinding_amended {n : ℕ} (h : Hasher (ZMod n) P S)
    (pi : PublicInputVar (ZMod n)) (w : Assignment (ZMod n) P S)
    (hs : synth h pi (Option.some w) = Except.ok true) (hstep : pi.step ≠ 0) :
    blind_note_hash_1 h pi w = h.var_blind_note (note_out_hash_1 h pi w) w.blind_1 ∧
      blind_note_hash_0 h pi w = h.var_blind_note (note_out_hash_1 h pi w) w.blind_0 ∧
      pi.state_out = h.var_state (blind_note_hash_0 h pi w) (blind_note_hash_1 h pi w) := by
  obtain ⟨-, -, -, -, -, -, -, -, hout, -⟩ := (constraints_iff h pi w).mp (synth_sat hs)
  refine ⟨rfl, rfl, ?_⟩
  exact hout (by simp [is_issue_tx, is_eq, hstep])

/-- Claim C2 witness: the amended derivation holds on the concrete
satisfying split assignment. -/
theorem C2_witness :
    synth toyH toyPiSplit (Option.some toyW) = Except.ok true ∧ toyPiSplit.step ≠ 0 ∧
      (blind_note_hash_1 toyH toyPiSplit toyW =
          toyH.var_blind_note (note_out_hash_1 toyH toyPiSplit toyW) toyW.blind_1 ∧
        blind_note_hash_0 toyH toyPiSplit toyW =
          toyH.var_blind_note (note_out_hash_1 toyH toyPiSplit toyW) toyW.blind_0 ∧
        toyPiSplit.state_out =
          toyH.var_state (blind_note_hash_0 toyH toyPiSplit toyW)
            (blind_note_hash_1 toyH toyPiSplit toyW)) :=
  ⟨toy_split_sat, by decide,
    C2_output_blinding_amended toyH toyPiSplit toyW toy_split_sat (by decide)⟩

/-- Claim C3 counterexample: the claim asserts the issue-branch digest is
`var_sighash(0, commitment, 0)` with the commitment in the middle argument;
but cs.rs line 69 computes `var_sighash(0, 0, note_hash)`, and on this
satisfying issuance assignment the two digests differ. -/
theorem C3_counterexample :
    synth toyH toyPiIssue (Option.some toyW) = Except.ok true ∧
      toyPiIssue.step = 0 ∧
      issue_sighash toyH toyPiIssue toyW ≠
        toyH.var_sighash 0 (issue_note_hash toyH toyPiIssue toyW) 0 :=
  ⟨toy_issue_sat, rfl, by decide⟩

/-- Claim C3, amended: the Issue branch's transcript digest is
`var_sighash(0, 0, commitment)` — the first two arguments are zero and the
issued note's commitment occupies the third — and on a satisfying issuance
this digest is the one the signature gate verifies. -/
theorem C3_issue_sighash_amended {n : ℕ} (h : Hasher (ZMod n) P S)
    (pi : PublicInputVar (ZMod n)) (w : Assignment (ZMod n) P S)
    (hs : synth h pi (Option.some w) = Except.ok true) (hstep : pi.step = 0) :
    issue_sighash h pi w = h.var_sighash 0 0 (issue_note_hash h pi w) ∧
      h.verify_signature w.public_key w.sig_r w.sig_s
        (h.var_sighash 0 0 (issue_note_hash h pi w)) = true := by
  have hiss : is_issue_tx pi = true := by simp [is_issue_tx, is_eq, hstep]
  obtain ⟨-, -, -, -, -, -, -, -, -, hsig⟩ := (constraints_iff h pi w).mp (synth_sat hs)
  refine ⟨rfl, ?_⟩
  simpa [selected_sighash, conditionally_select, hiss, issue_sighash] using hsig

/-- Claim C3 witness: the amended digest derivation holds on the concrete
satisfying issuance assignment. -/
theorem C3_witness :
    synth toyH toyPiIssue (Option.some toyW) = Except.ok true ∧ toyPiIssue.step = 0 ∧
      (issue_sighash toyH toyPiIssue toyW =
          toyH.var_sighash 0 0 (issue_note_hash toyH toyPiIssue toyW) ∧
        toyH.verify_signature toyW.public_key toyW.sig_r toyW.sig_s
          (toyH.var_sighash 0 0 (issue_note_hash toyH toyPiIssue toyW)) = true) :=
  ⟨toy_issue_sat, rfl,
    C3_issue_sighash_amended toyH toyPiIssue toyW toy_issue_sat rfl⟩

/-- Claim C5: exactly one branch's equations are bound to the public input,
selected by `is_issue_tx = (step == 0)`: under `step = 0` the issue-branch
`state_in`/`state_out` equalities hold and the signature gate receives the
issue digest; under `step ≠ 0` the split-branch
`state_in`/`state_out`/nullifier equalities hold and the gate receives the
split digest; and for an issuance the public nullifier is unconstrained —
replacing it does not change satisfiability. -/
theorem C5_branch_selection {n : ℕ} :
    (∀ (h : Hasher (ZMod n) P S) (pi : PublicInputVar (ZMod n))
        (w : Assignment (ZMod n) P S),
      synth h pi (Option.some w) = Except.ok true → pi.step = 0 →
        pi.state_in = pi.asset_hash ∧ pi.state_out = issue_state_out h pi w ∧
        selected_sighash h pi w = issue_sighash h pi w ∧
        h.verify_signature w.public_key w.sig_r w.sig_s (issue_sighash h pi w) = true) ∧
    (∀ (h : Hasher (ZMod n) P S) (pi : PublicInputVar (ZMod n))
        (w : Assignment (ZMod n) P S),
      synth h pi (Option.some w) = Except.ok true → pi.step ≠ 0 →
        pi.state_in = split_state_in h pi w ∧ pi.nullifier = split_nullifier h pi w ∧
        pi.state_out = split_state_out h pi w ∧
        selected_sighash h pi w = split_sighash h pi w ∧
        h.verify_signature w.public_key w.sig_r w.sig_s (split_sighash h pi w) = true) ∧
    (∀ (h : Hasher (ZMod n) P S) (pi : PublicInputVar (ZMod n))
        (w : Assignment (ZMod n) P S) (x : ZMod n), pi.step = 0 →
        (synth h (set_nullifier pi x) (Option.some w) = Except.ok true ↔
          synth h pi (Option.some w) = Except.ok true)) := by
  refine ⟨?_, ?_, ?_⟩
  · intro h pi w hs hstep
    have hiss : is_issue_tx pi = true := by simp [is_issue_tx, is_eq, hstep]
    obtain ⟨-, hin, hout, -, -, -, -, -, -, hsig⟩ :=
      (constraints_iff h pi w).mp (synth_sat hs)
    have hsel : selected_sighash h pi w = issue_sighash h pi w := by
      simp [selected_sighash, conditionally_select, hiss]
    refine ⟨hin hiss, hout hiss, hsel, ?_⟩
    rwa [hsel] at hsig
  · intro h pi w hs hstep
    have hiss : is_issue_tx pi = false := by simp [is_issue_tx, is_eq, hstep]
    obtain ⟨-, -, -, -, hin, hnul, -, -, hout, hsig⟩ :=
      (constraints_iff h pi w).mp (synth_sat hs)
    have hsel : selected_sighash h pi w = split_sighash h pi w := by
      simp [selected_sighash, conditionally_select, hiss]
    refine ⟨hin hiss, hnul hiss, hout hiss, hsel, ?_⟩
    rwa [hsel] at hsig
  · intro h pi w x hstep
    constructor
    · intro hs
      obtain ⟨h1, h2, h3, h4, h5, -, h7, h8, h9, h10⟩ :=
        (constraints_iff h (set_nullifier pi x) w).mp (synth_sat hs)
      exact congrArg Except.ok ((constraints_iff h pi w).mpr
        ⟨h1, h2, h3, h4, h5,
          fun hf => absurd hf (by simp [is_issue_tx, is_eq, hstep]),
          h7, h8, h9, h10⟩)
    · intro hs
      obtain ⟨h1, h2, h3, h4, h5, -, h7, h8, h9, h10⟩ :=
        (constraints_iff h pi w).mp (synth_sat hs)
      exact congrArg Except.ok ((constraints_iff h (set_nullifier pi x) w).mpr
        ⟨h1, h2, h3, h4, h5,
          fun hf => absurd hf (by simp [is_issue_tx, is_eq, set_nullifier, hstep]),
          h7, h8, h9, h10⟩)

/-- Claim C5 witness: both branch instantiations and the
nullifier-replacement invariance, on the concrete assignments. -/
theorem C5_witness :
    (synth toyH toyPiIssue (Option.some toyW) = Except.ok true ∧ toyPiIssue.step = 0 ∧
      (toyPiIssue.state_in = toyPiIssue.asset_hash ∧
        toyPiIssue.state_out = issue_state_out toyH toyPiIssue toyW ∧
        selected_sighash toyH toyPiIssue toyW = issue_sighash toyH toyPiIssue toyW ∧
        toyH.verify_signature toyW.public_key toyW.sig_r toyW.sig_s
          (issue_sighash toyH toyPiIssue toyW) = true)) ∧
    (synth toyH toyPiSplit (Option.some toyW) = Except.ok true ∧ toyPiSplit.step ≠ 0 ∧
      (toyPiSplit.state_in = split_state_in toyH toyPiSplit toyW ∧
        toyPiSplit.nullifier = split_nullifier toyH toyPiSplit toyW ∧
        toyPiSplit.state_out = split_state_out toyH toyPiSplit toyW ∧
        selected_sighash toyH toyPiSplit toyW = split_sighash toyH toyPiSplit toyW ∧
        toyH.verify_signature toyW.public_key toyW.sig_r toyW.sig_s
          (split_sighash toyH toyPiSplit toyW) = true)) ∧
    (synth toyH (set_nullifier toyPiIssue 999) (Option.some toyW) = Except.ok true ↔
      synth toyH toyPiIssue (Option.some toyW) = Except.ok true) :=
  ⟨⟨toy_issue_sat, rfl, C5_branch_selection.1 toyH toyPiIssue toyW toy_issue_sat rfl⟩,
    ⟨toy_split_sat, by decide,
      C5_branch_selection.2.1 toyH toyPiSplit toyW toy_split_sat (by decide)⟩,
    C5_branch_selection.2.2 toyH toyPiIssue toyW 999 rfl⟩

/-- A second concrete split assignment, identical to `toyW` except the spent
note sits in slot `Out1`. -/
def toyW1 : Assignment (ZMod toyN) Unit Unit :=
  ⟨(), 0, 0, 0, 7, 2, 0, 0, 2, 1, 0, 0, 0, (), ()⟩

/-- Public input of a split step matching `toyW1` under `toyH`. -/
def toyPiSplit1 : PublicInputVar (ZMod toyN) :=
  ⟨1, 5, 0, 21, 9, 3⟩

/-- Claim C1 evaluation at the failing inputs: on a satisfying split
assignment with `input_index = Out0`, the state reconstruction
(cs.rs lines 107-108) places the spent note's blinded commitment in *both*
slots — the right slot is not the witnessed sibling as claimed; and with
`input_index = Out1` it places the sibling in both slots — the right slot
is not the blinded commitment as claimed.  The sibling (resp. the blinded
commitment) never enters `state_in`. -/
theorem C1_state_reconstruction_eval :
    (synth toyH toyPiSplit (Option.some toyW) = Except.ok true ∧
      toyW.input_index = NoteOutIndex.inner toyN NoteOutIndex.Out0 ∧
      split_lhs toyH toyPiSplit toyW = blind_note_in_hash toyH toyPiSplit toyW ∧
      split_rhs toyH toyPiSplit toyW = blind_note_in_hash toyH toyPiSplit toyW ∧
      split_rhs toyH toyPiSplit toyW ≠ toyW.sibling) ∧
    (synth toyH toyPiSplit1 (Option.some toyW1) = Except.ok true ∧
      toyW1.input_index = NoteOutIndex.inner toyN NoteOutIndex.Out1 ∧
      split_lhs toyH toyPiSplit1 toyW1 = toyW1.sibling ∧
      split_rhs toyH toyPiSplit1 toyW1 = toyW1.sibling ∧
      split_rhs toyH toyPiSplit1 toyW1 ≠ blind_note_in_hash toyH toyPiSplit1 toyW1) :=
  ⟨⟨toy_split_sat, by decide, by decide, by decide, by decide⟩,
    ⟨congrArg Except.ok (by decide), by decide, by decide, by decide, by decide⟩⟩

end IVCNotes
